import Mathlib

/-!
Shallow embedding of `scripts/distribute_testflight.py`: a linear sequential
script that authenticates to a REST API, resolves an app, a beta group and a
build, waits for the build's processing state, submits it for beta review and
attaches it to the group.

The embedding models the script's observable behaviour as a trace of events
(prints, sleeps, HTTP GET urls, HTTP POST urls with their serialized bodies)
together with a final outcome: normal return, `sys.exit(code)`, or an uncaught
HTTP-error exception.  HTTP responses are supplied by an `Env` record so that
every server behaviour can be quantified over.
-/

namespace DistributeTestflight

/-- Configuration constant `ISSUER_ID` from the script. -/
def ISSUER_ID : String := "0abea7d2-dc18-4109-818e-327b3ad1909e"

/-- Configuration constant `KEY_ID` from the script. -/
def KEY_ID : String := "GJU5L8J2YM"

/-- Configuration constant `BUNDLE_ID` from the script. -/
def BUNDLE_ID : String := "com.johnhoffman.CoParentingApp"

/-- Configuration constant `BETA_GROUP_NAME` from the script. -/
def BETA_GROUP_NAME : String := "Family"

/-- The JWT payload dict built by `generate_token`. -/
structure JwtPayload where
  iss : String
  iat : Nat
  exp : Nat
  aud : String
deriving DecidableEq

/-- The (unsigned view of the) JWT produced by `generate_token`:
`jwt.encode(payload, private_key, algorithm="ES256", headers={"kid": KEY_ID})`.
Signing itself is abstracted; the payload, algorithm, header key id and the
signing key handed to the library are recorded. -/
structure JwtToken where
  payload : JwtPayload
  algorithm : String
  kid : String
  signingKey : String
deriving DecidableEq

/-- `generate_token()`: the key file's text is passed in as `privateKey` and the
current time `int(time.time())` as `now`. -/
def generate_token (now : Nat) (privateKey : String) : JwtToken :=
  { payload :=
      { iss := ISSUER_ID
        iat := now
        exp := now + 20 * 60
        aud := "appstoreconnect-v1" }
    algorithm := "ES256"
    kid := KEY_ID
    signingKey := privateKey }

/-- JSON values, as built by the script for POST bodies and returned by the
server for POST responses. -/
inductive J where
  | str (s : String)
  | arr (elts : List J)
  | obj (fields : List (String × J))

mutual

/-- `json.dumps` on a JSON value (default separators `", "` and `": "`; the
script's strings contain no characters needing escapes). -/
def J.dump : J → String
  | .str s => "\"" ++ s ++ "\""
  | .arr l => "[" ++ J.dumpList l ++ "]"
  | .obj l => "\x7b" ++ J.dumpFields l ++ "\x7d"

/-- `json.dumps` of a list of array elements. -/
def J.dumpList : List J → String
  | [] => ""
  | [j] => J.dump j
  | j :: rest => J.dump j ++ ", " ++ J.dumpList rest

/-- `json.dumps` of a list of object fields. -/
def J.dumpFields : List (String × J) → String
  | [] => ""
  | [(k, v)] => "\"" ++ k ++ "\": " ++ J.dump v
  | (k, v) :: rest => "\"" ++ k ++ "\": " ++ J.dump v ++ ", " ++ J.dumpFields rest

end

/-- Observable events of a run: `print` lines, `time.sleep` calls, HTTP GETs
(by url) and HTTP POSTs (url and the serialized request body actually sent,
`json.dumps(data).encode()`). -/
inductive Ev where
  | print (s : String)
  | sleep (secs : Nat)
  | get (url : String)
  | post (url : String) (body : String)
deriving DecidableEq

/-- A `urllib.error.HTTPError`: status code and error body. -/
structure HttpErr where
  code : Nat
  body : String
deriving DecidableEq

/-- How a run terminates abnormally: `sys.exit(code)`, or an uncaught
`HTTPError` exception propagating out of `main` (the Python interpreter then
exits with a nonzero status, printing a traceback rather than a script
message). -/
inductive Term where
  | exit (code : Nat)
  | uncaught (e : HttpErr)
deriving DecidableEq

/-- The server's response to a POST: success with an HTTP status and parsed
JSON body, or an `HTTPError` with a status code and error body. -/
inductive PostResp where
  | ok (status : Nat) (body : J)
  | err (code : Nat) (body : String)

/-- An entry of the `data` list of the apps response, as used by `find_app`
(only `["id"]` is read). -/
structure AppObj where
  id : String
deriving DecidableEq

/-- An entry of the `data` list of the betaGroups response, as used by
`find_beta_group` (`["id"]` and `["attributes"]["name"]` are read). -/
structure GroupObj where
  id : String
  name : String
deriving DecidableEq

/-- An entry of the `data` list of the builds response, as used by the script
(`["id"]`, `["attributes"]["version"]`, `["attributes"]["processingState"]`). -/
structure BuildObj where
  id : String
  version : String
  processingState : String
deriving DecidableEq

/-- `api_post(token, url, data)`: emits the POST; on success returns `None`
exactly for a 204 status and the parsed JSON body otherwise; on an
`HTTPError` prints `"  API error {code}: {body}"` and re-raises the error
(which carries its status code). -/
def api_post (token : JwtToken) (url : String) (data : J) (resp : PostResp) :
    List Ev × Except HttpErr (Option J) :=
  match resp with
  | .ok status body =>
      ([Ev.post url (J.dump data)],
       Except.ok (if status = 204 then none else some body))
  | .err code body =>
      ([Ev.post url (J.dump data),
        Ev.print ("  API error " ++ toString code ++ ": " ++ body)],
       Except.error ⟨code, body⟩)

/-- The url requested by `find_app`. -/
def find_app_url : String :=
  "https://api.appstoreconnect.apple.com/v1/apps?filter[bundleId]=" ++ BUNDLE_ID

/-- `find_app(token)`: GET the apps filtered by bundle id; the server's parsed
`data` list is supplied as `apps`.  Empty list: print an ERROR line and
`sys.exit(1)`.  Otherwise return `apps[0]["id"]`. -/
def find_app (token : JwtToken) (apps : List AppObj) : List Ev × Except Term String :=
  match apps with
  | [] =>
      ([Ev.get find_app_url,
        Ev.print ("ERROR: No app found with bundle ID " ++ BUNDLE_ID)],
       Except.error (Term.exit 1))
  | a :: _ => ([Ev.get find_app_url], Except.ok a.id)

/-- The url requested by `find_beta_group`. -/
def beta_groups_url (app_id : String) : String :=
  "https://api.appstoreconnect.apple.com/v1/apps/" ++ app_id ++ "/betaGroups"

/-- The `for g in groups` scan of `find_beta_group`: the id of the first group
whose `attributes.name` equals `BETA_GROUP_NAME` (Python `==` on strings). -/
def find_beta_group_go : List GroupObj → Option String
  | [] => none
  | g :: rest =>
      if g.name = BETA_GROUP_NAME then some g.id else find_beta_group_go rest

/-- `find_beta_group(token, app_id)`: GET the app's beta groups, scan for the
configured name; on a miss print the ERROR line, the `"  Available groups:"`
header and one line per returned group, then `sys.exit(1)`. -/
def find_beta_group (token : JwtToken) (app_id : String) (groups : List GroupObj) :
    List Ev × Except Term String :=
  match find_beta_group_go groups with
  | some gid => ([Ev.get (beta_groups_url app_id)], Except.ok gid)
  | none =>
      (Ev.get (beta_groups_url app_id) ::
         Ev.print ("ERROR: No beta group named '" ++ BETA_GROUP_NAME ++ "' found") ::
         Ev.print "  Available groups:" ::
         groups.map (fun g => Ev.print ("    - " ++ g.name)),
       Except.error (Term.exit 1))

/-- The url requested by `find_latest_build`: the version filter is appended
only when `build_number` is truthy (Python `if build_number:`), i.e. neither
`None` nor the empty string. -/
def find_latest_build_url (app_id : String) (build_number : Option String) : String :=
  let url := "https://api.appstoreconnect.apple.com/v1/builds?filter[app]=" ++
    app_id ++ "&sort=-version&limit=5"
  match build_number with
  | none => url
  | some bn => if bn = "" then url else url ++ "&filter[version]=" ++ bn

/-- `find_latest_build(token, app_id, build_number)`: GET the builds (the
server's parsed `data` list is supplied as `builds`); empty list prints an
ERROR line and `sys.exit(1)`; otherwise return `builds[0]`. -/
def find_latest_build (token : JwtToken) (app_id : String)
    (build_number : Option String) (builds : List BuildObj) :
    List Ev × Except Term BuildObj :=
  match builds with
  | [] =>
      ([Ev.get (find_latest_build_url app_id build_number),
        Ev.print "ERROR: No builds found"],
       Except.error (Term.exit 1))
  | b :: _ => ([Ev.get (find_latest_build_url app_id build_number)], Except.ok b)

/-- The url POSTed to by `add_build_to_group`. -/
def add_url (group_id : String) : String :=
  "https://api.appstoreconnect.apple.com/v1/betaGroups/" ++ group_id ++
    "/relationships/builds"

/-- The request dict of `add_build_to_group`. -/
def add_data (build_id : String) : J :=
  J.obj [("data", J.arr [J.obj [("type", J.str "builds"), ("id", J.str build_id)]])]

/-- `add_build_to_group(token, group_id, build_id)`: POST the relationship;
every `HTTPError` propagates. -/
def add_build_to_group (token : JwtToken) (group_id build_id : String)
    (resp : PostResp) : List Ev × Except HttpErr Unit :=
  let r := api_post token (add_url group_id) (add_data build_id) resp
  match r.2 with
  | Except.ok _ => (r.1, Except.ok ())
  | Except.error e => (r.1, Except.error e)

/-- The url POSTed to by `submit_for_beta_review`. -/
def submit_url : String :=
  "https://api.appstoreconnect.apple.com/v1/betaAppReviewSubmissions"

/-- The request dict of `submit_for_beta_review`. -/
def submit_data (build_id : String) : J :=
  J.obj [("data", J.obj
    [("type", J.str "betaAppReviewSubmissions"),
     ("relationships", J.obj
       [("build", J.obj
         [("data", J.obj [("type", J.str "builds"), ("id", J.str build_id)])])])])]

/-- `submit_for_beta_review(token, build_id)`: POST the submission; an
`HTTPError` with code 409 is caught, a note is printed and the run continues;
any other `HTTPError` is re-raised. -/
def submit_for_beta_review (token : JwtToken) (build_id : String)
    (resp : PostResp) : List Ev × Except HttpErr Unit :=
  let r := api_post token submit_url (submit_data build_id) resp
  match r.2 with
  | Except.ok _ => (r.1, Except.ok ())
  | Except.error e =>
      if e.code = 409 then
        (r.1 ++ [Ev.print "  (Already submitted or approved)"], Except.ok ())
      else
        (r.1, Except.error e)

/-- One pass of the `for i in range(60): ... else: ...` processing-wait loop,
with `fuel` remaining iterations and `i` the current loop index.  Each
iteration sleeps 10 seconds, re-resolves the build by the captured `version`,
prints the observed state, leaves on `VALID`, exits on `INVALID`, and the
`else:` clause (fuel exhausted) prints the still-processing ERROR and exits.
On success it returns the last polled build and the number of polls made. -/
def wait_go (token : JwtToken) (app_id version : String)
    (polls : Nat → List BuildObj) : Nat → Nat → List Ev × Except Term (BuildObj × Nat)
  | _, 0 =>
      ([Ev.print "ERROR: Build still processing after 10 minutes"],
       Except.error (Term.exit 1))
  | i, fuel + 1 =>
      let f := find_latest_build token app_id (some version) (polls i)
      match f.2 with
      | Except.error t => (Ev.sleep 10 :: f.1, Except.error t)
      | Except.ok b =>
          let line := Ev.print ("  ... " ++ b.processingState ++ " (" ++
            toString ((i + 1) * 10) ++ "s)")
          if b.processingState = "VALID" then
            (Ev.sleep 10 :: f.1 ++ [line], Except.ok (b, i + 1))
          else if b.processingState = "INVALID" then
            (Ev.sleep 10 :: f.1 ++ [line, Ev.print "ERROR: Build is invalid"],
             Except.error (Term.exit 1))
          else
            let rest := wait_go token app_id version polls (i + 1) fuel
            (Ev.sleep 10 :: f.1 ++ line :: rest.1, rest.2)

/-- The whole wait loop: 60 iterations starting at index 0. -/
def processing_wait (token : JwtToken) (app_id version : String)
    (polls : Nat → List BuildObj) : List Ev × Except Term (BuildObj × Nat) :=
  wait_go token app_id version polls 0 60

/-- Server-side behaviour of one run: the parsed `data` lists answered to the
three lookups, the builds list answered to the loop's `i`-th re-poll, and the
responses to the two POSTs. -/
structure Env where
  apps : List AppObj
  groups : List GroupObj
  initialBuilds : List BuildObj
  polls : Nat → List BuildObj
  submitResp : PostResp
  addResp : PostResp

/-- `main()`: the full run.  `build_number` is the parsed `--build-number`
argument (`none` when the flag is absent), `now` the token-generation time,
`privateKey` the key file's text.  Returns the event trace and the outcome:
`Except.ok ()` is a normal return (process exit code 0). -/
def main (build_number : Option String) (now : Nat) (privateKey : String)
    (env : Env) : List Ev × Except Term Unit :=
  let token := generate_token now privateKey
  let pre := [Ev.print "Generating API token...",
              Ev.print ("Finding app (" ++ BUNDLE_ID ++ ")...")]
  let fa := find_app token env.apps
  match fa.2 with
  | Except.error t => (pre ++ fa.1, Except.error t)
  | Except.ok app_id =>
    let pre := pre ++ fa.1 ++
      [Ev.print ("Finding '" ++ BETA_GROUP_NAME ++ "' beta group...")]
    let fg := find_beta_group token app_id env.groups
    match fg.2 with
    | Except.error t => (pre ++ fg.1, Except.error t)
    | Except.ok group_id =>
      let pre := pre ++ fg.1 ++ [Ev.print "Finding build..."]
      let fb := find_latest_build token app_id build_number env.initialBuilds
      match fb.2 with
      | Except.error t => (pre ++ fb.1, Except.error t)
      | Except.ok build =>
        let build_id := build.id
        let version := build.version
        let status := build.processingState
        let pre := pre ++ fb.1 ++
          [Ev.print ("  Build " ++ version ++ " (status: " ++ status ++ ")")]
        let w :=
          if status = "VALID" then ([], Except.ok ())
          else
            let pw := processing_wait token app_id version env.polls
            (Ev.print "  Waiting for build to finish processing..." :: pw.1,
             match pw.2 with
             | Except.ok _ => Except.ok ()
             | Except.error t => Except.error t)
        match w.2 with
        | Except.error t => (pre ++ w.1, Except.error t)
        | Except.ok () =>
          let pre := pre ++ w.1 ++
            [Ev.print ("Submitting build " ++ version ++ " for beta review...")]
          let sub := submit_for_beta_review token build_id env.submitResp
          match sub.2 with
          | Except.error e => (pre ++ sub.1, Except.error (Term.uncaught e))
          | Except.ok () =>
            let pre := pre ++ sub.1 ++
              [Ev.print ("Adding build " ++ version ++ " to '" ++
                BETA_GROUP_NAME ++ "' group...")]
            let ad := add_build_to_group token group_id build_id env.addResp
            match ad.2 with
            | Except.error e => (pre ++ ad.1, Except.error (Term.uncaught e))
            | Except.ok () =>
              (pre ++ ad.1 ++
                 [Ev.print ("Done! Build " ++ version ++ " is now available to '" ++
                   BETA_GROUP_NAME ++ "' testers.")],
               Except.ok ())

/-! ### Trace observations -/

/-- Is this event a `print` of a line starting with `"ERROR:"`? -/
def isErrorLine (s : String) : Bool := s.data.take 6 = "ERROR:".data

/-- Is this event a diagnostic print whose line starts with `"ERROR:"`? -/
def evIsErrorPrint : Ev → Bool
  | Ev.print s => isErrorLine s
  | _ => false

/-- Number of HTTP GET events in a trace (= number of polls, inside the wait
loop's trace). -/
def getCount : List Ev → Nat
  | [] => 0
  | Ev.get _ :: t => getCount t + 1
  | _ :: t => getCount t

/-- Number of `time.sleep` events in a trace. -/
def sleepCount : List Ev → Nat
  | [] => 0
  | Ev.sleep _ :: t => sleepCount t + 1
  | _ :: t => sleepCount t

theorem getCount_append (a b : List Ev) :
    getCount (a ++ b) = getCount a + getCount b := by
  induction a with
  | nil => simp [getCount]
  | cons e t ih => cases e <;> simp [getCount, ih] <;> omega

theorem sleepCount_append (a b : List Ev) :
    sleepCount (a ++ b) = sleepCount a + sleepCount b := by
  induction a with
  | nil => simp [sleepCount]
  | cons e t ih => cases e <;> simp [sleepCount, ih] <;> omega

/-! ### Wait-loop lemmas -/

theorem wait_go_mem_shape (token : JwtToken) (a v : String)
    (polls : Nat → List BuildObj) :
    ∀ fuel i e, e ∈ (wait_go token a v polls i fuel).1 →
      e = Ev.sleep 10 ∨ e = Ev.get (find_latest_build_url a (some v)) ∨
        ∃ s, e = Ev.print s := by
  intro fuel
  induction fuel with
  | zero =>
      intro i e he
      simp only [wait_go, List.mem_singleton] at he
      exact Or.inr (Or.inr ⟨_, he⟩)
  | succ fuel ih =>
      intro i e he
      cases hp : polls i with
      | nil =>
          simp [wait_go, find_latest_build, hp] at he
          rcases he with he | he | he
          · exact Or.inl he
          · exact Or.inr (Or.inl he)
          · exact Or.inr (Or.inr ⟨_, he⟩)
      | cons b bs =>
          by_cases hV : b.processingState = "VALID"
          · simp [wait_go, find_latest_build, hp, hV] at he
            rcases he with he | he | he
            · exact Or.inl he
            · exact Or.inr (Or.inl he)
            · exact Or.inr (Or.inr ⟨_, he⟩)
          · by_cases hI : b.processingState = "INVALID"
            · simp [wait_go, find_latest_build, hp, hV, hI] at he
              rcases he with he | he | he | he
              · exact Or.inl he
              · exact Or.inr (Or.inl he)
              · exact Or.inr (Or.inr ⟨_, he⟩)
              · exact Or.inr (Or.inr ⟨_, he⟩)
            · simp [wait_go, find_latest_build, hp, hV, hI] at he
              rcases he with he | he | he | he
              · exact Or.inl he
              · exact Or.inr (Or.inl he)
              · exact Or.inr (Or.inr ⟨_, he⟩)
              · exact ih (i + 1) e he

theorem wait_go_getCount_le (token : JwtToken) (a v : String)
    (polls : Nat → List BuildObj) :
    ∀ fuel i, getCount (wait_go token a v polls i fuel).1 ≤ fuel := by
  intro fuel
  induction fuel with
  | zero => intro i; simp [wait_go, getCount]
  | succ fuel ih =>
      intro i
      cases hp : polls i with
      | nil => simp [wait_go, find_latest_build, hp, getCount]
      | cons b bs =>
          by_cases hV : b.processingState = "VALID"
          · simp [wait_go, find_latest_build, hp, hV, getCount, getCount_append]
          · by_cases hI : b.processingState = "INVALID"
            · simp [wait_go, find_latest_build, hp, hV, hI, getCount, getCount_append]
            · simp [wait_go, find_latest_build, hp, hV, hI, getCount, getCount_append]
              have := ih (i + 1)
              omega

theorem wait_go_sleepCount_eq (token : JwtToken) (a v : String)
    (polls : Nat → List BuildObj) :
    ∀ fuel i, sleepCount (wait_go token a v polls i fuel).1 =
      getCount (wait_go token a v polls i fuel).1 := by
  intro fuel
  induction fuel with
  | zero => intro i; simp [wait_go, getCount, sleepCount]
  | succ fuel ih =>
      intro i
      cases hp : polls i with
      | nil => simp [wait_go, find_latest_build, hp, getCount, sleepCount]
      | cons b bs =>
          by_cases hV : b.processingState = "VALID"
          · simp [wait_go, find_latest_build, hp, hV, getCount, sleepCount,
              getCount_append, sleepCount_append]
          · by_cases hI : b.processingState = "INVALID"
            · simp [wait_go, find_latest_build, hp, hV, hI, getCount, sleepCount,
                getCount_append, sleepCount_append]
            · simp [wait_go, find_latest_build, hp, hV, hI, getCount, sleepCount,
                getCount_append, sleepCount_append]
              have := ih (i + 1)
              omega

theorem wait_go_error_class (token : JwtToken) (a v : String)
    (polls : Nat → List BuildObj) :
    ∀ fuel i t, (wait_go token a v polls i fuel).2 = Except.error t →
      t = Term.exit 1 ∧ ∃ s, Ev.print s ∈ (wait_go token a v polls i fuel).1 ∧
        isErrorLine s = true := by
  intro fuel
  induction fuel with
  | zero =>
      intro i t ht
      simp only [wait_go, Except.error.injEq] at ht
      refine ⟨ht.symm, "ERROR: Build still processing after 10 minutes", ?_, by decide⟩
      simp [wait_go]
  | succ fuel ih =>
      intro i t ht
      cases hp : polls i with
      | nil =>
          simp [wait_go, find_latest_build, hp] at ht
          refine ⟨ht.symm, "ERROR: No builds found", ?_, by decide⟩
          simp [wait_go, find_latest_build, hp]
      | cons b bs =>
          by_cases hV : b.processingState = "VALID"
          · simp [wait_go, find_latest_build, hp, hV] at ht
          · by_cases hI : b.processingState = "INVALID"
            · simp [wait_go, find_latest_build, hp, hV, hI] at ht
              refine ⟨ht.symm, "ERROR: Build is invalid", ?_, by decide⟩
              simp [wait_go, find_latest_build, hp, hV, hI]
            · simp only [wait_go, find_latest_build, hp, hV, hI, if_false,
                ite_false] at ht ⊢
              have hrec := ih (i + 1) t (by
                simpa [wait_go, find_latest_build, hp, hV, hI] using ht)
              refine ⟨hrec.1, ?_⟩
              obtain ⟨s, hs, hserr⟩ := hrec.2
              refine ⟨s, ?_, hserr⟩
              simp [wait_go, find_latest_build, hp, hV, hI]
              tauto

theorem wait_go_skip (token : JwtToken) (a v : String) (polls : Nat → List BuildObj) :
    ∀ (n i fuel : Nat),
      (∀ j, i ≤ j → j < i + n → ∃ b r, polls j = b :: r ∧
        b.processingState ≠ "VALID" ∧ b.processingState ≠ "INVALID") →
      n ≤ fuel →
      ∃ pre, (wait_go token a v polls i fuel).1 =
          pre ++ (wait_go token a v polls (i + n) (fuel - n)).1 ∧
        (wait_go token a v polls i fuel).2 =
          (wait_go token a v polls (i + n) (fuel - n)).2 := by
  intro n
  induction n with
  | zero => intro i fuel _ _; exact ⟨[], by simp, rfl⟩
  | succ n ih =>
      intro i fuel hskip hn
      obtain ⟨fuel', rfl⟩ : ∃ f, fuel = f + 1 := ⟨fuel - 1, by omega⟩
      obtain ⟨b, r, hp, hV, hI⟩ := hskip i (le_refl i) (by omega)
      obtain ⟨pre2, h1, h2⟩ := ih (i + 1) fuel'
        (fun j hj1 hj2 => hskip j (by omega) (by omega)) (by omega)
      have hidx : i + (n + 1) = (i + 1) + n := by omega
      have hfuel : fuel' + 1 - (n + 1) = fuel' - n := by omega
      rw [hidx, hfuel]
      refine ⟨Ev.sleep 10 :: Ev.get (find_latest_build_url a (some v)) ::
        Ev.print ("  ... " ++ b.processingState ++ " (" ++
          toString ((i + 1) * 10) ++ "s)") :: pre2, ?_, ?_⟩
      · simp [wait_go, find_latest_build, hp, hV, hI, h1]
      · simp [wait_go, find_latest_build, hp, hV, hI, h2]

/-! ### Concrete scripted environments -/

/-- Wait-loop script answering PROCESSING to the first two re-polls and VALID
to the third. -/
def scriptPPV : Nat → List BuildObj := fun i =>
  if i = 0 then [⟨"bid", "7", "PROCESSING"⟩]
  else if i = 1 then [⟨"bid", "7", "PROCESSING"⟩]
  else [⟨"bid", "7", "VALID"⟩]

/-- Full-run environment whose initial build is PROCESSING and whose re-polls
follow `scriptPPV`; both POSTs succeed. -/
def envPPV : Env :=
  { apps := [⟨"appid"⟩]
    groups := [⟨"gid", "Family"⟩]
    initialBuilds := [⟨"bid", "7", "PROCESSING"⟩]
    polls := scriptPPV
    submitResp := PostResp.ok 201 (J.obj [])
    addResp := PostResp.ok 204 (J.obj []) }

/-- C1: whenever the freshly located build is not VALID, the wait loop makes at
most 60 polls, each preceded by a 10-second sleep and each re-resolving the
build by the captured exact version; it returns as soon as a poll observes
VALID, exits fatally (code 1, "ERROR: Build is invalid") when a poll observes
INVALID, exits fatally ("ERROR: Build still processing after 10 minutes",
code 1) when all 60 polls are exhausted without VALID; and for the scripted
state sequence [PROCESSING, PROCESSING, VALID] the loop returns after the
third poll and the whole run proceeds to success. -/
theorem C1_processing_wait_loop :
    (∀ (token : JwtToken) (a v : String) (polls : Nat → List BuildObj)
        (n : Nat) (hb : BuildObj) (rest : List BuildObj), n < 60 →
      (∀ j, j < n → ∃ b r, polls j = b :: r ∧
        b.processingState ≠ "VALID" ∧ b.processingState ≠ "INVALID") →
      polls n = hb :: rest →
      (hb.processingState = "VALID" →
        (processing_wait token a v polls).2 = Except.ok (hb, n + 1)) ∧
      (hb.processingState = "INVALID" →
        (processing_wait token a v polls).2 = Except.error (Term.exit 1) ∧
        Ev.print "ERROR: Build is invalid" ∈ (processing_wait token a v polls).1)) ∧
    (∀ (token : JwtToken) (a v : String) (polls : Nat → List BuildObj),
      (∀ j, j < 60 → ∃ b r, polls j = b :: r ∧
        b.processingState ≠ "VALID" ∧ b.processingState ≠ "INVALID") →
      (processing_wait token a v polls).2 = Except.error (Term.exit 1) ∧
      Ev.print "ERROR: Build still processing after 10 minutes" ∈
        (processing_wait token a v polls).1) ∧
    (∀ (token : JwtToken) (a v : String) (polls : Nat → List BuildObj),
      getCount (processing_wait token a v polls).1 ≤ 60 ∧
      sleepCount (processing_wait token a v polls).1 =
        getCount (processing_wait token a v polls).1 ∧
      (∀ s, Ev.sleep s ∈ (processing_wait token a v polls).1 → s = 10) ∧
      (∀ u, Ev.get u ∈ (processing_wait token a v polls).1 →
        u = find_latest_build_url a (some v))) ∧
    ((processing_wait (generate_token 0 "k") "appid" "7" scriptPPV).2 =
        Except.ok (⟨"bid", "7", "VALID"⟩, 3) ∧
      (main none 0 "k" envPPV).2 = Except.ok ()) := by
  refine ⟨?_, ?_, ?_, ?_, ?_⟩
  · intro token a v polls n hb rest hn hskip hp
    obtain ⟨pre, htr, hres⟩ := wait_go_skip token a v polls n 0 60
      (fun j hj1 hj2 => hskip j (by omega)) (by omega)
    simp only [Nat.zero_add] at htr hres
    obtain ⟨f', hf⟩ : ∃ f, 60 - n = f + 1 := ⟨59 - n, by omega⟩
    rw [hf] at htr hres
    constructor
    · intro hV
      show (wait_go token a v polls 0 60).2 = _
      rw [hres]
      simp [wait_go, find_latest_build, hp, hV]
    · intro hI
      have hV : hb.processingState ≠ "VALID" := by rw [hI]; decide
      refine ⟨?_, ?_⟩
      · show (wait_go token a v polls 0 60).2 = _
        rw [hres]
        simp [wait_go, find_latest_build, hp, hV, hI]
      · show Ev.print "ERROR: Build is invalid" ∈ (wait_go token a v polls 0 60).1
        rw [htr]
        refine List.mem_append_right _ ?_
        simp [wait_go, find_latest_build, hp, hV, hI]
  · intro token a v polls hskip
    obtain ⟨pre, htr, hres⟩ := wait_go_skip token a v polls 60 0 60
      (fun j hj1 hj2 => hskip j (by omega)) (le_refl 60)
    simp only [Nat.zero_add, Nat.sub_self] at htr hres
    constructor
    · show (wait_go token a v polls 0 60).2 = _
      rw [hres]
      rfl
    · show Ev.print "ERROR: Build still processing after 10 minutes" ∈
        (wait_go token a v polls 0 60).1
      rw [htr]
      refine List.mem_append_right _ ?_
      simp [wait_go]
  · intro token a v polls
    refine ⟨wait_go_getCount_le token a v polls 60 0,
      wait_go_sleepCount_eq token a v polls 60 0, ?_, ?_⟩
    · intro s hs
      rcases wait_go_mem_shape token a v polls 60 0 _ hs with h | h | ⟨s', h⟩ <;>
        simp_all
    · intro u hu
      rcases wait_go_mem_shape token a v polls 60 0 _ hu with h | h | ⟨s', h⟩ <;>
        simp_all
  · rfl
  · rfl

/-! ### Classification lemmas for the pipeline stages -/

theorem find_app_err_class (token : JwtToken) (apps : List AppObj) (t : Term)
    (h : (find_app token apps).2 = Except.error t) :
    t = Term.exit 1 ∧ ∃ s, Ev.print s ∈ (find_app token apps).1 ∧
      isErrorLine s = true := by
  cases apps with
  | nil =>
      simp only [find_app, Except.error.injEq] at h
      exact ⟨h.symm, "ERROR: No app found with bundle ID " ++ BUNDLE_ID,
        by simp [find_app], by decide⟩
  | cons a as => simp [find_app] at h

theorem find_beta_group_err_class (token : JwtToken) (app_id : String)
    (groups : List GroupObj) (t : Term)
    (h : (find_beta_group token app_id groups).2 = Except.error t) :
    t = Term.exit 1 ∧ ∃ s, Ev.print s ∈ (find_beta_group token app_id groups).1 ∧
      isErrorLine s = true := by
  cases hgo : find_beta_group_go groups with
  | some gid => simp [find_beta_group, hgo] at h
  | none =>
      simp only [find_beta_group, hgo, Except.error.injEq] at h
      exact ⟨h.symm, "ERROR: No beta group named '" ++ BETA_GROUP_NAME ++ "' found",
        by simp [find_beta_group, hgo], by decide⟩

theorem find_latest_build_err_class (token : JwtToken) (app_id : String)
    (bn : Option String) (builds : List BuildObj) (t : Term)
    (h : (find_latest_build token app_id bn builds).2 = Except.error t) :
    t = Term.exit 1 ∧ Ev.print "ERROR: No builds found" ∈
      (find_latest_build token app_id bn builds).1 := by
  cases builds with
  | nil =>
      simp only [find_latest_build, Except.error.injEq] at h
      exact ⟨h.symm, by simp [find_latest_build]⟩
  | cons b bs => simp [find_latest_build] at h

theorem find_app_no_post (token : JwtToken) (apps : List AppObj) (u d : String) :
    Ev.post u d ∉ (find_app token apps).1 := by
  cases apps <;> simp [find_app]

theorem find_beta_group_no_post (token : JwtToken) (app_id : String)
    (groups : List GroupObj) (u d : String) :
    Ev.post u d ∉ (find_beta_group token app_id groups).1 := by
  cases hgo : find_beta_group_go groups <;> simp [find_beta_group, hgo]

theorem find_latest_build_no_post (token : JwtToken) (app_id : String)
    (bn : Option String) (builds : List BuildObj) (u d : String) :
    Ev.post u d ∉ (find_latest_build token app_id bn builds).1 := by
  cases builds <;> simp [find_latest_build]

theorem wait_go_no_post (token : JwtToken) (a v : String)
    (polls : Nat → List BuildObj) (fuel i : Nat) (u d : String) :
    Ev.post u d ∉ (wait_go token a v polls i fuel).1 := by
  intro hmem
  rcases wait_go_mem_shape token a v polls fuel i _ hmem with h | h | ⟨s, h⟩ <;>
    simp at h

/-- Environment whose run is clean except that the review submission is
answered 409 (already submitted). -/
def envSubmit409 : Env :=
  { apps := [⟨"appid"⟩]
    groups := [⟨"gid", "Family"⟩]
    initialBuilds := [⟨"bid", "7", "VALID"⟩]
    polls := fun _ => []
    submitResp := PostResp.err 409 "conflict"
    addResp := PostResp.ok 204 (J.obj []) }

/-- Environment whose run is clean except that the group attachment is
answered 409. -/
def envAdd409 : Env :=
  { apps := [⟨"appid"⟩]
    groups := [⟨"gid", "Family"⟩]
    initialBuilds := [⟨"bid", "7", "VALID"⟩]
    polls := fun _ => []
    submitResp := PostResp.ok 201 (J.obj [])
    addResp := PostResp.err 409 "conflict" }

/-- Environment whose initial build lookup reports INVALID but whose first
re-poll reports VALID; both POSTs succeed. -/
def envInvalidThenValid : Env :=
  { apps := [⟨"appid"⟩]
    groups := [⟨"gid", "Family"⟩]
    initialBuilds := [⟨"bid", "7", "INVALID"⟩]
    polls := fun _ => [⟨"bid2", "7", "VALID"⟩]
    submitResp := PostResp.ok 201 (J.obj [])
    addResp := PostResp.ok 204 (J.obj []) }

/-- Environment whose initial build lookup and first re-poll both report
INVALID. -/
def envInvalidTwice : Env :=
  { apps := [⟨"appid"⟩]
    groups := [⟨"gid", "Family"⟩]
    initialBuilds := [⟨"bid", "7", "INVALID"⟩]
    polls := fun _ => [⟨"bid", "7", "INVALID"⟩]
    submitResp := PostResp.ok 201 (J.obj [])
    addResp := PostResp.ok 204 (J.obj []) }

/-- Master behaviour lemma for `main`: classification of every abnormal
outcome (only `sys.exit(1)` with an ERROR-prefixed print, or an uncaught
HTTPError after its `"  API error ..."` print), of the success outcome (the
Done line names the initially fetched build's version), and of every POST
made (always the initially fetched build's id). -/
theorem main_master (bn : Option String) (now : Nat) (pk : String) (env : Env) :
    (∀ c, (main bn now pk env).2 = Except.error (Term.exit c) →
      c = 1 ∧ ∃ s, Ev.print s ∈ (main bn now pk env).1 ∧ isErrorLine s = true) ∧
    (∀ e, (main bn now pk env).2 = Except.error (Term.uncaught e) →
      Ev.print ("  API error " ++ toString e.code ++ ": " ++ e.body) ∈
        (main bn now pk env).1) ∧
    ((main bn now pk env).2 = Except.ok () →
      ∃ b rest, env.initialBuilds = b :: rest ∧
        Ev.print ("Done! Build " ++ b.version ++ " is now available to '" ++
          BETA_GROUP_NAME ++ "' testers.") ∈ (main bn now pk env).1) ∧
    (∀ (b : BuildObj) (rest : List BuildObj), env.initialBuilds = b :: rest →
      ∀ u d, Ev.post u d ∈ (main bn now pk env).1 →
        (u = submit_url ∧ d = J.dump (submit_data b.id)) ∨
        (∃ gid, u = add_url gid ∧ d = J.dump (add_data b.id))) := by
  obtain ⟨apps, groups, ibuilds, polls, sresp, aresp⟩ := env
  cases apps with
  | nil =>
      refine ⟨?_, ?_, ?_, ?_⟩
      · intro c hc
        simp [main, find_app] at hc
        refine ⟨by omega, "ERROR: No app found with bundle ID " ++ BUNDLE_ID,
          ?_, by decide⟩
        simp [main, find_app]
      · intro e he
        simp [main, find_app] at he
      · intro h
        simp [main, find_app] at h
      · intro b rest hb u d hmem
        simp [main, find_app] at hmem
  | cons a as =>
    cases hgo : find_beta_group_go groups with
    | none =>
        refine ⟨?_, ?_, ?_, ?_⟩
        · intro c hc
          simp [main, find_app, find_beta_group, hgo] at hc
          refine ⟨by omega,
            "ERROR: No beta group named '" ++ BETA_GROUP_NAME ++ "' found",
            ?_, by decide⟩
          simp [main, find_app, find_beta_group, hgo]
        · intro e he
          simp [main, find_app, find_beta_group, hgo] at he
        · intro h
          simp [main, find_app, find_beta_group, hgo] at h
        · intro b rest hb u d hmem
          simp [main, find_app, find_beta_group, hgo] at hmem
    | some gid =>
      cases ibuilds with
      | nil =>
          refine ⟨?_, ?_, ?_, ?_⟩
          · intro c hc
            simp [main, find_app, find_beta_group, hgo, find_latest_build] at hc
            refine ⟨by omega, "ERROR: No builds found", ?_, by decide⟩
            simp [main, find_app, find_beta_group, hgo, find_latest_build]
          · intro e he
            simp [main, find_app, find_beta_group, hgo, find_latest_build] at he
          · intro h
            simp [main, find_app, find_beta_group, hgo, find_latest_build] at h
          · intro b rest hb
            simp at hb
      | cons b0 bs =>
        by_cases hst : b0.processingState = "VALID"
        · -- already VALID: no wait loop
          cases sresp with
          | err sc sb =>
              by_cases h409 : sc = 409
              · subst h409
                cases aresp with
                | err ac ab =>
                    refine ⟨?_, ?_, ?_, ?_⟩
                    · intro c hc
                      simp [main, find_app, find_beta_group, hgo,
                        find_latest_build, hst, submit_for_beta_review,
                        add_build_to_group, api_post] at hc
                    · intro e he
                      rcases e with ⟨ec, eb⟩
                      simp [main, find_app, find_beta_group, hgo,
                        find_latest_build, hst, submit_for_beta_review,
                        add_build_to_group, api_post] at he
                      obtain ⟨h1, h2⟩ := he
                      subst h1; subst h2
                      simp [main, find_app, find_beta_group, hgo,
                        find_latest_build, hst, submit_for_beta_review,
                        add_build_to_group, api_post]
                    · intro h
                      simp [main, find_app, find_beta_group, hgo,
                        find_latest_build, hst, submit_for_beta_review,
                        add_build_to_group, api_post] at h
                    · intro b rest hb u d hmem
                      injection hb with h1 h2; subst h1
                      simp [main, find_app, find_beta_group, hgo,
                        find_latest_build, hst, submit_for_beta_review,
                        add_build_to_group, api_post] at hmem
                      tauto
                | ok ast ab =>
                    refine ⟨?_, ?_, ?_, ?_⟩
                    · intro c hc
                      simp [main, find_app, find_beta_group, hgo,
                        find_latest_build, hst, submit_for_beta_review,
                        add_build_to_group, api_post] at hc
                    · intro e he
                      simp [main, find_app, find_beta_group, hgo,
                        find_latest_build, hst, submit_for_beta_review,
                        add_build_to_group, api_post] at he
                    · intro h
                      refine ⟨b0, bs, rfl, ?_⟩
                      simp [main, find_app, find_beta_group, hgo,
                        find_latest_build, hst, submit_for_beta_review,
                        add_build_to_group, api_post]
                    · intro b rest hb u d hmem
                      injection hb with h1 h2; subst h1
                      simp [main, find_app, find_beta_group, hgo,
                        find_latest_build, hst, submit_for_beta_review,
                        add_build_to_group, api_post] at hmem
                      tauto
              · refine ⟨?_, ?_, ?_, ?_⟩
                · intro c hc
                  simp [main, find_app, find_beta_group, hgo,
                    find_latest_build, hst, submit_for_beta_review,
                    add_build_to_group, api_post, h409] at hc
                · intro e he
                  rcases e with ⟨ec, eb⟩
                  simp [main, find_app, find_beta_group, hgo,
                    find_latest_build, hst, submit_for_beta_review,
                    add_build_to_group, api_post, h409] at he
                  obtain ⟨h1, h2⟩ := he
                  subst h1; subst h2
                  simp [main, find_app, find_beta_group, hgo,
                    find_latest_build, hst, submit_for_beta_review,
                    add_build_to_group, api_post, h409]
                · intro h
                  simp [main, find_app, find_beta_group, hgo,
                    find_latest_build, hst, submit_for_beta_review,
                    add_build_to_group, api_post, h409] at h
                · intro b rest hb u d hmem
                  injection hb with h1 h2; subst h1
                  simp [main, find_app, find_beta_group, hgo,
                    find_latest_build, hst, submit_for_beta_review,
                    add_build_to_group, api_post, h409] at hmem
                  tauto
          | ok sst sb =>
              cases aresp with
              | err ac ab =>
                  refine ⟨?_, ?_, ?_, ?_⟩
                  · intro c hc
                    simp [main, find_app, find_beta_group, hgo,
                      find_latest_build, hst, submit_for_beta_review,
                      add_build_to_group, api_post] at hc
                  · intro e he
                    rcases e with ⟨ec, eb⟩
                    simp [main, find_app, find_beta_group, hgo,
                      find_latest_build, hst, submit_for_beta_review,
                      add_build_to_group, api_post] at he
                    obtain ⟨h1, h2⟩ := he
                    subst h1; subst h2
                    simp [main, find_app, find_beta_group, hgo,
                      find_latest_build, hst, submit_for_beta_review,
                      add_build_to_group, api_post]
                  · intro h
                    simp [main, find_app, find_beta_group, hgo,
                      find_latest_build, hst, submit_for_beta_review,
                      add_build_to_group, api_post] at h
                  · intro b rest hb u d hmem
                    injection hb with h1 h2; subst h1
                    simp [main, find_app, find_beta_group, hgo,
                      find_latest_build, hst, submit_for_beta_review,
                      add_build_to_group, api_post] at hmem
                    tauto
              | ok ast ab =>
                  refine ⟨?_, ?_, ?_, ?_⟩
                  · intro c hc
                    simp [main, find_app, find_beta_group, hgo,
                      find_latest_build, hst, submit_for_beta_review,
                      add_build_to_group, api_post] at hc
                  · intro e he
                    simp [main, find_app, find_beta_group, hgo,
                      find_latest_build, hst, submit_for_beta_review,
                      add_build_to_group, api_post] at he
                  · intro h
                    refine ⟨b0, bs, rfl, ?_⟩
                    simp [main, find_app, find_beta_group, hgo,
                      find_latest_build, hst, submit_for_beta_review,
                      add_build_to_group, api_post]
                  · intro b rest hb u d hmem
                    injection hb with h1 h2; subst h1
                    simp [main, find_app, find_beta_group, hgo,
                      find_latest_build, hst, submit_for_beta_review,
                      add_build_to_group, api_post] at hmem
                    tauto
        · -- not VALID: the wait loop runs
          cases hpw : (processing_wait (generate_token now pk) a.id b0.version polls).2 with
          | error t =>
              simp only [processing_wait] at hpw
              obtain ⟨ht1, s, hs, herr⟩ :=
                wait_go_error_class (generate_token now pk) a.id b0.version polls 60 0 t hpw
              subst ht1
              refine ⟨?_, ?_, ?_, ?_⟩
              · intro c hc
                simp [main, find_app, find_beta_group, hgo, find_latest_build,
                  hst, processing_wait, hpw] at hc
                refine ⟨by omega, s, ?_, herr⟩
                simp [main, find_app, find_beta_group, hgo, find_latest_build,
                  hst, processing_wait, hpw]
                tauto
              · intro e he
                simp [main, find_app, find_beta_group, hgo, find_latest_build,
                  hst, processing_wait, hpw] at he
              · intro h
                simp [main, find_app, find_beta_group, hgo, find_latest_build,
                  hst, processing_wait, hpw] at h
              · intro b rest hb u d hmem
                injection hb with h1 h2; subst h1
                simp [main, find_app, find_beta_group, hgo, find_latest_build,
                  hst, processing_wait, hpw] at hmem
                exact absurd hmem
                  (wait_go_no_post (generate_token now pk) a.id b0.version polls 60 0 u d)
          | ok p =>
              simp only [processing_wait] at hpw
              cases sresp with
              | err sc sb =>
                  by_cases h409 : sc = 409
                  · subst h409
                    cases aresp with
                    | err ac ab =>
                        refine ⟨?_, ?_, ?_, ?_⟩
                        · intro c hc
                          simp [main, find_app, find_beta_group, hgo,
                            find_latest_build, hst, processing_wait, hpw,
                            submit_for_beta_review, add_build_to_group,
                            api_post] at hc
                        · intro e he
                          rcases e with ⟨ec, eb⟩
                          simp [main, find_app, find_beta_group, hgo,
                            find_latest_build, hst, processing_wait, hpw,
                            submit_for_beta_review, add_build_to_group,
                            api_post] at he
                          obtain ⟨h1, h2⟩ := he
                          subst h1; subst h2
                          simp [main, find_app, find_beta_group, hgo,
                            find_latest_build, hst, processing_wait, hpw,
                            submit_for_beta_review, add_build_to_group,
                            api_post]
                        · intro h
                          simp [main, find_app, find_beta_group, hgo,
                            find_latest_build, hst, processing_wait, hpw,
                            submit_for_beta_review, add_build_to_group,
                            api_post] at h
                        · intro b rest hb u d hmem
                          injection hb with h1 h2; subst h1
                          simp [main, find_app, find_beta_group, hgo,
                            find_latest_build, hst, processing_wait, hpw,
                            submit_for_beta_review, add_build_to_group,
                            api_post] at hmem
                          rcases hmem with h | h
                          · exact absurd h (wait_go_no_post _ _ _ polls 60 0 u d)
                          · tauto
                    | ok ast ab =>
                        refine ⟨?_, ?_, ?_, ?_⟩
                        · intro c hc
                          simp [main, find_app, find_beta_group, hgo,
                            find_latest_build, hst, processing_wait, hpw,
                            submit_for_beta_review, add_build_to_group,
                            api_post] at hc
                        · intro e he
                          simp [main, find_app, find_beta_group, hgo,
                            find_latest_build, hst, processing_wait, hpw,
                            submit_for_beta_review, add_build_to_group,
                            api_post] at he
                        · intro h
                          refine ⟨b0, bs, rfl, ?_⟩
                          simp [main, find_app, find_beta_group, hgo,
                            find_latest_build, hst, processing_wait, hpw,
                            submit_for_beta_review, add_build_to_group,
                            api_post]
                        · intro b rest hb u d hmem
                          injection hb with h1 h2; subst h1
                          simp [main, find_app, find_beta_group, hgo,
                            find_latest_build, hst, processing_wait, hpw,
                            submit_for_beta_review, add_build_to_group,
                            api_post] at hmem
                          rcases hmem with h | h
                          · exact absurd h (wait_go_no_post _ _ _ polls 60 0 u d)
                          · tauto
                  · refine ⟨?_, ?_, ?_, ?_⟩
                    · intro c hc
                      simp [main, find_app, find_beta_group, hgo,
                        find_latest_build, hst, processing_wait, hpw,
                        submit_for_beta_review, add_build_to_group, api_post,
                        h409] at hc
                    · intro e he
                      rcases e with ⟨ec, eb⟩
                      simp [main, find_app, find_beta_group, hgo,
                        find_latest_build, hst, processing_wait, hpw,
                        submit_for_beta_review, add_build_to_group, api_post,
                        h409] at he
                      obtain ⟨h1, h2⟩ := he
                      subst h1; subst h2
                      simp [main, find_app, find_beta_group, hgo,
                        find_latest_build, hst, processing_wait, hpw,
                        submit_for_beta_review, add_build_to_group, api_post,
                        h409]
                    · intro h
                      simp [main, find_app, find_beta_group, hgo,
                        find_latest_build, hst, processing_wait, hpw,
                        submit_for_beta_review, add_build_to_group, api_post,
                        h409] at h
                    · intro b rest hb u d hmem
                      injection hb with h1 h2; subst h1
                      simp [main, find_app, find_beta_group, hgo,
                        find_latest_build, hst, processing_wait, hpw,
                        submit_for_beta_review, add_build_to_group, api_post,
                        h409] at hmem
                      rcases hmem with h | h
                      · exact absurd h (wait_go_no_post _ _ _ polls 60 0 u d)
                      · tauto
              | ok sst sb =>
                  cases aresp with
                  | err ac ab =>
                      refine ⟨?_, ?_, ?_, ?_⟩
                      · intro c hc
                        simp [main, find_app, find_beta_group, hgo,
                          find_latest_build, hst, processing_wait, hpw,
                          submit_for_beta_review, add_build_to_group,
                          api_post] at hc
                      · intro e he
                        rcases e with ⟨ec, eb⟩
                        simp [main, find_app, find_beta_group, hgo,
                          find_latest_build, hst, processing_wait, hpw,
                          submit_for_beta_review, add_build_to_group,
                          api_post] at he
                        obtain ⟨h1, h2⟩ := he
                        subst h1; subst h2
                        simp [main, find_app, find_beta_group, hgo,
                          find_latest_build, hst, processing_wait, hpw,
                          submit_for_beta_review, add_build_to_group,
                          api_post]
                      · intro h
                        simp [main, find_app, find_beta_group, hgo,
                          find_latest_build, hst, processing_wait, hpw,
                          submit_for_beta_review, add_build_to_group,
                          api_post] at h
                      · intro b rest hb u d hmem
                        injection hb with h1 h2; subst h1
                        simp [main, find_app, find_beta_group, hgo,
                          find_latest_build, hst, processing_wait, hpw,
                          submit_for_beta_review, add_build_to_group,
                          api_post] at hmem
                        rcases hmem with h | h
                        · exact absurd h (wait_go_no_post _ _ _ polls 60 0 u d)
                        · tauto
                  | ok ast ab =>
                      refine ⟨?_, ?_, ?_, ?_⟩
                      · intro c hc
                        simp [main, find_app, find_beta_group, hgo,
                          find_latest_build, hst, processing_wait, hpw,
                          submit_for_beta_review, add_build_to_group,
                          api_post] at hc
                      · intro e he
                        simp [main, find_app, find_beta_group, hgo,
                          find_latest_build, hst, processing_wait, hpw,
                          submit_for_beta_review, add_build_to_group,
                          api_post] at he
                      · intro h
                        refine ⟨b0, bs, rfl, ?_⟩
                        simp [main, find_app, find_beta_group, hgo,
                          find_latest_build, hst, processing_wait, hpw,
                          submit_for_beta_review, add_build_to_group,
                          api_post]
                      · intro b rest hb u d hmem
                        injection hb with h1 h2; subst h1
                        simp [main, find_app, find_beta_group, hgo,
                          find_latest_build, hst, processing_wait, hpw,
                          submit_for_beta_review, add_build_to_group,
                          api_post] at hmem
                        rcases hmem with h | h
                        · exact absurd h (wait_go_no_post _ _ _ polls 60 0 u d)
                        · tauto

/-! ### Claim theorems -/

/-- C4: for a token generated at time T, the payload has issuer `ISSUER_ID`,
issued-at T, expiry T + 1200 seconds, audience "appstoreconnect-v1"; the
header key id is `KEY_ID` and the signing algorithm is ES256. -/
theorem C4_generate_token (T : Nat) (privateKey : String) :
    (generate_token T privateKey).payload.iss = ISSUER_ID ∧
    (generate_token T privateKey).payload.iat = T ∧
    (generate_token T privateKey).payload.exp = T + 1200 ∧
    (generate_token T privateKey).payload.aud = "appstoreconnect-v1" ∧
    (generate_token T privateKey).kid = KEY_ID ∧
    (generate_token T privateKey).algorithm = "ES256" :=
  ⟨rfl, rfl, rfl, rfl, rfl, rfl⟩

/-- C7: `api_post` returns `none` exactly when the server responds 204 and
otherwise returns the parsed JSON body on success; on every HTTP error it
prints `"  API error {code}: {body}"` and re-raises an error carrying the
response's status code. -/
theorem C7_api_post (token : JwtToken) (url : String) (data : J) (resp : PostResp) :
    ((api_post token url data resp).2 = Except.ok none ↔
      ∃ body, resp = PostResp.ok 204 body) ∧
    (∀ status body, resp = PostResp.ok status body → status ≠ 204 →
      (api_post token url data resp).2 = Except.ok (some body)) ∧
    (∀ code body, resp = PostResp.err code body →
      (api_post token url data resp).2 = Except.error ⟨code, body⟩ ∧
      Ev.print ("  API error " ++ toString code ++ ": " ++ body) ∈
        (api_post token url data resp).1) := by
  refine ⟨?_, ?_, ?_⟩
  · cases resp with
    | ok status body =>
        by_cases h : status = 204 <;> simp [api_post, h]
    | err code body => simp [api_post]
  · intro status body hr h204
    subst hr
    simp [api_post, h204]
  · intro code body hr
    subst hr
    simp [api_post]

/-- C2: `submit_for_beta_review` treats an HTTP 409 response as success and
suppresses the error while every other HTTP error propagates;
`add_build_to_group` has no such exemption, so every HTTP error, 409
included, propagates.  At run level, a 409 on submission lets the run finish
successfully while a 409 on attachment aborts it. -/
theorem C2_409_exemption :
    (∀ (token : JwtToken) (build_id body : String),
      (submit_for_beta_review token build_id (PostResp.err 409 body)).2 =
        Except.ok ()) ∧
    (∀ (token : JwtToken) (build_id : String) (code : Nat) (body : String),
      code ≠ 409 →
      (submit_for_beta_review token build_id (PostResp.err code body)).2 =
        Except.error ⟨code, body⟩) ∧
    (∀ (token : JwtToken) (group_id build_id : String) (code : Nat) (body : String),
      (add_build_to_group token group_id build_id (PostResp.err code body)).2 =
        Except.error ⟨code, body⟩) ∧
    ((main none 0 "k" envSubmit409).2 = Except.ok () ∧
      (main none 0 "k" envAdd409).2 =
        Except.error (Term.uncaught ⟨409, "conflict"⟩)) := by
  refine ⟨?_, ?_, ?_, rfl, rfl⟩
  · intro token build_id body
    simp [submit_for_beta_review, api_post]
  · intro token build_id code body h
    simp [submit_for_beta_review, api_post, h]
  · intro token group_id build_id code body
    simp [add_build_to_group, api_post]

theorem find_beta_group_go_eq_find (groups : List GroupObj) :
    find_beta_group_go groups =
      (groups.find? fun g => g.name == BETA_GROUP_NAME).map GroupObj.id := by
  induction groups with
  | nil => rfl
  | cons g rest ih =>
      by_cases h : g.name = BETA_GROUP_NAME
      · simp [find_beta_group_go, List.find?, h, ih]
      · have hb : (g.name == BETA_GROUP_NAME) = false := by
          simpa using h
        simp [find_beta_group_go, List.find?, h, ih, hb]

/-- C5: `find_beta_group` returns the id of the first returned group whose
name equals the configured name under case-sensitive comparison (duplicates
included); when no group matches, it exits with code 1 after printing the
error line, a header and every returned group's name. -/
theorem C5_find_beta_group :
    (∀ (token : JwtToken) (app_id : String) (groups : List GroupObj) (g : GroupObj),
      groups.find? (fun g => g.name == BETA_GROUP_NAME) = some g →
      (find_beta_group token app_id groups).2 = Except.ok g.id) ∧
    (∀ (token : JwtToken) (app_id : String) (groups : List GroupObj),
      (∀ g ∈ groups, g.name ≠ BETA_GROUP_NAME) →
      (find_beta_group token app_id groups).2 = Except.error (Term.exit 1) ∧
      (find_beta_group token app_id groups).1 =
        Ev.get (beta_groups_url app_id) ::
          Ev.print ("ERROR: No beta group named '" ++ BETA_GROUP_NAME ++ "' found") ::
          Ev.print "  Available groups:" ::
          groups.map (fun g => Ev.print ("    - " ++ g.name))) ∧
    (∀ (token : JwtToken) (app_id : String),
      (find_beta_group token app_id [⟨"g1", "family"⟩, ⟨"g2", "Family"⟩]).2 =
        Except.ok "g2") ∧
    (∀ (token : JwtToken) (app_id : String),
      (find_beta_group token app_id [⟨"g1", "Family"⟩, ⟨"g2", "Family"⟩]).2 =
        Except.ok "g1") := by
  refine ⟨?_, ?_, fun token app_id => rfl, fun token app_id => rfl⟩
  · intro token app_id groups g hfind
    have hgo : find_beta_group_go groups = some g.id := by
      rw [find_beta_group_go_eq_find, hfind]; rfl
    simp [find_beta_group, hgo]
  · intro token app_id groups hnone
    have hgo : find_beta_group_go groups = none := by
      rw [find_beta_group_go_eq_find, List.find?_eq_none.2]
      · rfl
      · intro g hg
        simpa using hnone g hg
    simp [find_beta_group, hgo]

/-- C6: `find_app` selects the first element of the returned apps list
(returning its id) and `find_latest_build` returns the first element of the
returned builds list; each exits fatally with a printed error on an empty
list; the builds request is sorted by version descending with limit 5 and,
when a (nonempty) build number is supplied, filtered to that exact version. -/
theorem C6_find_app_find_build :
    (∀ (token : JwtToken) (a : AppObj) (rest : List AppObj),
      (find_app token (a :: rest)).2 = Except.ok a.id) ∧
    (∀ token : JwtToken,
      (find_app token []).2 = Except.error (Term.exit 1) ∧
      Ev.print ("ERROR: No app found with bundle ID " ++ BUNDLE_ID) ∈
        (find_app token []).1) ∧
    (∀ (token : JwtToken) (app_id : String) (bn : Option String)
        (b : BuildObj) (rest : List BuildObj),
      (find_latest_build token app_id bn (b :: rest)).2 = Except.ok b) ∧
    (∀ (token : JwtToken) (app_id : String) (bn : Option String),
      (find_latest_build token app_id bn []).2 = Except.error (Term.exit 1) ∧
      Ev.print "ERROR: No builds found" ∈ (find_latest_build token app_id bn []).1) ∧
    (∀ app_id : String, find_latest_build_url app_id none =
      "https://api.appstoreconnect.apple.com/v1/builds?filter[app]=" ++ app_id ++
        "&sort=-version&limit=5") ∧
    (∀ app_id bn : String, bn ≠ "" →
      find_latest_build_url app_id (some bn) =
        find_latest_build_url app_id none ++ "&filter[version]=" ++ bn) := by
  refine ⟨fun token a rest => rfl, ?_, fun token app_id bn b rest => rfl, ?_,
    fun app_id => rfl, ?_⟩
  · intro token
    exact ⟨rfl, by simp [find_app]⟩
  · intro token app_id bn
    exact ⟨rfl, by simp [find_latest_build]⟩
  · intro app_id bn h
    simp [find_latest_build_url, h]

theorem find_latest_build_empty_bn (token : JwtToken) (app_id : String)
    (builds : List BuildObj) :
    find_latest_build token app_id (some "") builds =
      find_latest_build token app_id none builds := by
  cases builds <;> simp [find_latest_build, find_latest_build_url]

/-- C10: a falsy build-number value — in particular the empty string, as
produced by `--build-number ""` — is treated by `find_latest_build` exactly
as if no build number were given: the request url carries no version filter,
the whole lookup behaves identically, and the whole run behaves
identically. -/
theorem C10_falsy_build_number :
    (∀ app_id : String,
      find_latest_build_url app_id (some "") = find_latest_build_url app_id none) ∧
    (∀ (token : JwtToken) (app_id : String) (builds : List BuildObj),
      find_latest_build token app_id (some "") builds =
        find_latest_build token app_id none builds) ∧
    (∀ (now : Nat) (pk : String) (env : Env),
      main (some "") now pk env = main none now pk env) := by
  refine ⟨fun app_id => rfl, find_latest_build_empty_bn, ?_⟩
  intro now pk env
  simp only [main, find_latest_build_empty_bn]

/-- C9: when the initial build lookup already reports INVALID the program does
not abort immediately: it enters the wait loop, sleeps 10 seconds and
re-resolves the build, and if that re-poll reports VALID the run proceeds all
the way to success; it aborts for INVALID only when a re-poll inside the loop
observes it, as the full event trace of such a run shows. -/
theorem C9_initial_invalid_enters_loop :
    ((main none 0 "k" envInvalidThenValid).2 = Except.ok () ∧
      Ev.sleep 10 ∈ (main none 0 "k" envInvalidThenValid).1 ∧
      Ev.get (find_latest_build_url "appid" (some "7")) ∈
        (main none 0 "k" envInvalidThenValid).1) ∧
    ((main none 0 "k" envInvalidTwice).2 = Except.error (Term.exit 1) ∧
      (main none 0 "k" envInvalidTwice).1 =
        [Ev.print "Generating API token...",
         Ev.print ("Finding app (" ++ BUNDLE_ID ++ ")..."),
         Ev.get find_app_url,
         Ev.print ("Finding '" ++ BETA_GROUP_NAME ++ "' beta group..."),
         Ev.get (beta_groups_url "appid"),
         Ev.print "Finding build...",
         Ev.get (find_latest_build_url "appid" none),
         Ev.print "  Build 7 (status: INVALID)",
         Ev.print "  Waiting for build to finish processing...",
         Ev.sleep 10,
         Ev.get (find_latest_build_url "appid" (some "7")),
         Ev.print "  ... INVALID (10s)",
         Ev.print "ERROR: Build is invalid"]) := by
  refine ⟨⟨rfl, ?_, ?_⟩, rfl, by decide⟩
  · decide
  · decide

/-- Environment whose run is clean up to the group attachment, which the
server answers with HTTP 500. -/
def envHttp500 : Env :=
  { apps := [⟨"appid"⟩]
    groups := [⟨"gid", "Family"⟩]
    initialBuilds := [⟨"bid", "42", "VALID"⟩]
    polls := fun _ => []
    submitResp := PostResp.ok 201 (J.obj [])
    addResp := PostResp.err 500 "server error" }

/-- Environment in which the apps lookup returns an empty list. -/
def envNoApps : Env :=
  { apps := []
    groups := []
    initialBuilds := []
    polls := fun _ => []
    submitResp := PostResp.ok 204 (J.obj [])
    addResp := PostResp.ok 204 (J.obj []) }

/-- C3 (amended): every `sys.exit` fatal condition (missing app, missing
group, no builds, invalid build, processing timeout) prints a diagnostic
prefixed "ERROR:" and exits with code 1; a non-exempt HTTP error instead
prints "  API error {code}: {body}" — not prefixed "ERROR:" — and terminates
the run via the uncaught exception (the interpreter then exits nonzero); on
the full-success path the program prints the Done line containing the build's
version and returns normally (exit code 0). -/
theorem C3_exit_discipline (bn : Option String) (now : Nat) (pk : String)
    (env : Env) :
    (∀ c, (main bn now pk env).2 = Except.error (Term.exit c) →
      c = 1 ∧ ∃ s, Ev.print s ∈ (main bn now pk env).1 ∧ isErrorLine s = true) ∧
    (∀ e, (main bn now pk env).2 = Except.error (Term.uncaught e) →
      Ev.print ("  API error " ++ toString e.code ++ ": " ++ e.body) ∈
        (main bn now pk env).1) ∧
    ((main bn now pk env).2 = Except.ok () →
      ∃ b rest, env.initialBuilds = b :: rest ∧
        Ev.print ("Done! Build " ++ b.version ++ " is now available to '" ++
          BETA_GROUP_NAME ++ "' testers.") ∈ (main bn now pk env).1) :=
  ⟨(main_master bn now pk env).1, (main_master bn now pk env).2.1,
    (main_master bn now pk env).2.2.1⟩

/-- C3 witness: on the concrete environment with no app, the run exits with
code 1 and its trace holds an "ERROR:"-prefixed print. -/
theorem C3_exit_discipline_witness :
    1 = 1 ∧ ∃ s, Ev.print s ∈ (main none 0 "k" envNoApps).1 ∧
      isErrorLine s = true :=
  (C3_exit_discipline none 0 "k" envNoApps).1 1 rfl

/-- C3 counterexample: a non-exempt HTTP error (500 on the group attachment)
is a fatal condition, yet the run's trace contains no print prefixed
"ERROR:" — the only diagnostic is the "  API error 500: ..." line, and the
run terminates via the uncaught exception rather than `sys.exit(1)`. -/
theorem C3_counterexample :
    (main none 0 "k" envHttp500).2 =
      Except.error (Term.uncaught ⟨500, "server error"⟩) ∧
    Ev.print "  API error 500: server error" ∈ (main none 0 "k" envHttp500).1 ∧
    (main none 0 "k" envHttp500).1.all (fun e => !evIsErrorPrint e) = true := by
  refine ⟨rfl, by decide, by decide⟩

/-- C8: the build id POSTed to the review submission and to the group
attachment, and the version named in the success line, are the ones captured
from the initial build lookup; the re-resolutions inside the wait loop never
change them, whatever build objects the polls return. -/
theorem C8_ids_frozen (bn : Option String) (now : Nat) (pk : String)
    (env : Env) (b : BuildObj) (rest : List BuildObj)
    (hb : env.initialBuilds = b :: rest) :
    (∀ u d, Ev.post u d ∈ (main bn now pk env).1 →
      (u = submit_url ∧ d = J.dump (submit_data b.id)) ∨
      (∃ gid, u = add_url gid ∧ d = J.dump (add_data b.id))) ∧
    ((main bn now pk env).2 = Except.ok () →
      Ev.print ("Done! Build " ++ b.version ++ " is now available to '" ++
        BETA_GROUP_NAME ++ "' testers.") ∈ (main bn now pk env).1) := by
  refine ⟨(main_master bn now pk env).2.2.2 b rest hb, ?_⟩
  intro hok
  obtain ⟨b', rest', hb', hmem⟩ := (main_master bn now pk env).2.2.1 hok
  rw [hb] at hb'
  injection hb' with h1 h2
  rw [h1]
  exact hmem

/-- C8 witness: in the scripted run `envPPV` (initial build "bid"/"7"
PROCESSING, later polls returning other states), the submission POST carries
the initial build id and the Done line carries the initial version. -/
theorem C8_ids_frozen_witness :
    ((submit_url = submit_url ∧
        J.dump (submit_data "bid") = J.dump (submit_data "bid")) ∨
      (∃ gid, submit_url = add_url gid ∧
        J.dump (submit_data "bid") = J.dump (add_data "bid"))) ∧
    Ev.print ("Done! Build " ++ "7" ++ " is now available to '" ++
      BETA_GROUP_NAME ++ "' testers.") ∈ (main none 0 "k" envPPV).1 :=
  ⟨(C8_ids_frozen none 0 "k" envPPV ⟨"bid", "7", "PROCESSING"⟩ [] rfl).1
      submit_url (J.dump (submit_data "bid")) (by decide),
    (C8_ids_frozen none 0 "k" envPPV ⟨"bid", "7", "PROCESSING"⟩ [] rfl).2 rfl⟩

/-- C1 witness: the loop hypotheses discharged on the concrete script
`scriptPPV` (VALID first observed at the third poll) and on an
always-PROCESSING script. -/
theorem C1_processing_wait_loop_witness :
    (processing_wait (generate_token 0 "k") "appid" "7" scriptPPV).2 =
      Except.ok (⟨"bid", "7", "VALID"⟩, 3) ∧
    (processing_wait (generate_token 0 "k") "appid" "7"
        (fun _ => [⟨"bid", "7", "PROCESSING"⟩])).2 =
      Except.error (Term.exit 1) := by
  constructor
  · refine (C1_processing_wait_loop.1 (generate_token 0 "k") "appid" "7"
      scriptPPV 2 ⟨"bid", "7", "VALID"⟩ [] (by omega) ?_ rfl).1 rfl
    intro j hj
    refine ⟨⟨"bid", "7", "PROCESSING"⟩, [], ?_, by decide, by decide⟩
    interval_cases j <;> rfl
  · refine (C1_processing_wait_loop.2.1 (generate_token 0 "k") "appid" "7"
      (fun _ => [⟨"bid", "7", "PROCESSING"⟩]) ?_).1
    intro j hj
    exact ⟨⟨"bid", "7", "PROCESSING"⟩, [], rfl, by decide, by decide⟩

/-- C2 witness: the non-409 propagation conjunct discharged at a concrete 500
response. -/
theorem C2_409_exemption_witness :
    (submit_for_beta_review (generate_token 0 "k") "bid"
      (PostResp.err 500 "boom")).2 = Except.error ⟨500, "boom"⟩ :=
  C2_409_exemption.2.1 (generate_token 0 "k") "bid" 500 "boom" (by omega)

/-- C5 witness: the match conjunct discharged on a two-group list and the
miss conjunct discharged on a list without the configured name. -/
theorem C5_find_beta_group_witness :
    (find_beta_group (generate_token 0 "k") "app"
      [⟨"x", "Kids"⟩, ⟨"gid", "Family"⟩]).2 =
        Except.ok (⟨"gid", "Family"⟩ : GroupObj).id ∧
    ((find_beta_group (generate_token 0 "k") "app" [⟨"x", "Kids"⟩]).2 =
        Except.error (Term.exit 1) ∧
      (find_beta_group (generate_token 0 "k") "app" [⟨"x", "Kids"⟩]).1 =
        Ev.get (beta_groups_url "app") ::
          Ev.print ("ERROR: No beta group named '" ++ BETA_GROUP_NAME ++ "' found") ::
          Ev.print "  Available groups:" ::
          List.map (fun g => Ev.print ("    - " ++ g.name))
            [(⟨"x", "Kids"⟩ : GroupObj)]) :=
  ⟨C5_find_beta_group.1 (generate_token 0 "k") "app"
      [⟨"x", "Kids"⟩, ⟨"gid", "Family"⟩] ⟨"gid", "Family"⟩ (by decide),
    C5_find_beta_group.2.1 (generate_token 0 "k") "app" [⟨"x", "Kids"⟩]
      (by decide)⟩

/-- C6 witness: the version-filter conjunct discharged at the nonempty build
number "42". -/
theorem C6_find_app_find_build_witness :
    find_latest_build_url "app" (some "42") =
      find_latest_build_url "app" none ++ "&filter[version]=" ++ "42" :=
  C6_find_app_find_build.2.2.2.2.2 "app" "42" (by decide)

/-- C7 witness: the non-204 success conjunct and the error conjunct
discharged at concrete responses. -/
theorem C7_api_post_witness :
    (api_post (generate_token 0 "k") "u" (J.str "d")
        (PostResp.ok 201 (J.str "r"))).2 = Except.ok (some (J.str "r")) ∧
    ((api_post (generate_token 0 "k") "u" (J.str "d")
        (PostResp.err 500 "boom")).2 = Except.error ⟨500, "boom"⟩ ∧
      Ev.print ("  API error " ++ toString 500 ++ ": " ++ "boom") ∈
        (api_post (generate_token 0 "k") "u" (J.str "d")
          (PostResp.err 500 "boom")).1) :=
  ⟨(C7_api_post (generate_token 0 "k") "u" (J.str "d")
      (PostResp.ok 201 (J.str "r"))).2.1 201 (J.str "r") rfl (by omega),
    (C7_api_post (generate_token 0 "k") "u" (J.str "d")
      (PostResp.err 500 "boom")).2.2 500 "boom" rfl⟩

end DistributeTestflight
